import Mathlib

/-!
Shallow embedding of the scx-slo SLO scheduler core
(src/src/scx_slo.bpf.c, with the userspace counter path of
src/src/scx_slo.c), over Nat with explicit mod 2^64 where the
C code's u64 arithmetic can wrap.
-/

namespace ScxSlo

/-- 2^64, the modulus of u64 arithmetic. -/
def U64MOD : Nat := 2 ^ 64

/-- U64_MAX from scx_slo.bpf.c. -/
def U64_MAX : Nat := U64MOD - 1

def NSEC_PER_MSEC : Nat := 1000000

def NSEC_PER_SEC : Nat := 1000000000

/-- DEFAULT_BUDGET_NS = 100ms, scx_slo.bpf.c line 80. -/
def DEFAULT_BUDGET_NS : Nat := 100 * NSEC_PER_MSEC

/-- MIN_BUDGET_NS = 1ms, scx_slo.bpf.c line 81. -/
def MIN_BUDGET_NS : Nat := 1 * NSEC_PER_MSEC

/-- MAX_BUDGET_NS = 10s, scx_slo.bpf.c line 82. -/
def MAX_BUDGET_NS : Nat := 10 * NSEC_PER_SEC

def MIN_IMPORTANCE : Nat := 1

def MAX_IMPORTANCE : Nat := 100

/-- MAX_EVENTS_PER_SEC = 1000, scx_slo.bpf.c line 89. -/
def MAX_EVENTS_PER_SEC : Nat := 1000

/-- RATE_LIMIT_WINDOW_NS = 1s, scx_slo.bpf.c line 90. -/
def RATE_LIMIT_WINDOW_NS : Nat := 1 * NSEC_PER_SEC

/-- MAX_TASKS = 100000, scx_slo.bpf.c line 106 (capacity of task_ctx_map). -/
def MAX_TASKS : Nat := 100000

/-- struct slo_cfg: per-cgroup SLO configuration (budget_ns u64,
importance u32, flags u32). -/
structure slo_cfg where
  budget_ns : Nat
  importance : Nat
  flags : Nat
deriving DecidableEq, Repr

/-- struct slo_task_ctx: per-task scheduling context (deadline,
start_time, budget_ns u64; valid u32). -/
structure slo_task_ctx where
  deadline : Nat
  start_time : Nat
  budget_ns : Nat
  valid : Nat
deriving DecidableEq, Repr

/-- struct deadline_event: ring-buffer record for a deadline miss. -/
structure deadline_event where
  cgroup_id : Nat
  deadline_miss_ns : Nat
  timestamp : Nat
deriving DecidableEq, Repr

/-- slo_map: BPF hash map cgroup_id -> slo_cfg. The BPF side only
reads it, so it is embedded as a lookup function. -/
def ConfigStore : Type := Nat → Option slo_cfg

/-- task_ctx_map: BPF hash map pid -> slo_task_ctx with capacity
MAX_TASKS; size tracks the number of occupied slots. -/
structure TaskStore where
  entries : Nat → Option slo_task_ctx
  size : Nat

/-- bpf_map_lookup_elem on task_ctx_map. -/
def ts_lookup (s : TaskStore) (pid : Nat) : Option slo_task_ctx :=
  s.entries pid

/-- A write through a pointer previously returned by lookup: replaces
the entry in place (the slot already exists, so size is unchanged). -/
def ts_set (s : TaskStore) (pid : Nat) (v : slo_task_ctx) : TaskStore :=
  ⟨fun k => if k = pid then some v else s.entries k, s.size⟩

/-- bpf_map_update_elem with BPF_ANY: replace if present, insert if a
slot is free, fail (none) if the map is full and the key is new. -/
def ts_update (s : TaskStore) (pid : Nat) (v : slo_task_ctx) : Option TaskStore :=
  match s.entries pid with
  | some _ => some (ts_set s pid v)
  | none =>
    if s.size < MAX_TASKS then
      some ⟨fun k => if k = pid then some v else s.entries k, s.size + 1⟩
    else none

/-- bpf_map_delete_elem on task_ctx_map. -/
def ts_delete (s : TaskStore) (pid : Nat) : TaskStore :=
  match s.entries pid with
  | some _ => ⟨fun k => if k = pid then none else s.entries k, s.size - 1⟩
  | none => s

/-- validate_slo_cfg, scx_slo.bpf.c lines 125-140 (the non-null case;
the null case is handled at the call sites that pass a map lookup).
Returns 0 on acceptance, -1 on rejection, exactly as the C code. -/
def validate_slo_cfg (cfg : slo_cfg) : Int :=
  if cfg.budget_ns = 0 ∨ cfg.budget_ns < MIN_BUDGET_NS ∨ cfg.budget_ns > MAX_BUDGET_NS then
    -1
  else if cfg.importance < MIN_IMPORTANCE ∨ cfg.importance > MAX_IMPORTANCE then
    -1
  else
    0

/-- get_safe_budget, scx_slo.bpf.c lines 143-153. -/
def get_safe_budget (slo_map : ConfigStore) (cgroup_id : Nat) : Nat :=
  match slo_map cgroup_id with
  | none => DEFAULT_BUDGET_NS
  | some cfg =>
    if validate_slo_cfg cfg ≠ 0 then DEFAULT_BUDGET_NS
    else cfg.budget_ns

/-- Per-CPU rate limiter state, rate_limit_state map:
index 0 holds event_count, index 1 holds window_start. -/
structure rate_limit_state where
  event_count : Nat
  window_start : Nat
deriving DecidableEq, Repr

/-- u64 subtraction a - b (wrapping, as in C). -/
def u64_sub (a b : Nat) : Nat :=
  (a + (U64MOD - b % U64MOD)) % U64MOD

/-- is_rate_limited, scx_slo.bpf.c lines 156-179. The Option models
the two bpf_map_lookup_elem calls: none means the per-CPU state could
not be accessed, in which case the code fails closed (returns true =
limited). Returns (limited, new state). -/
def is_rate_limited (st : Option rate_limit_state) (now : Nat) :
    Bool × Option rate_limit_state :=
  match st with
  | none => (true, none)
  | some st0 =>
    let st1 := if u64_sub now st0.window_start > RATE_LIMIT_WINDOW_NS then
        ⟨0, now⟩ else st0
    if st1.event_count ≥ MAX_EVENTS_PER_SEC then (true, some st1)
    else (false, some ⟨st1.event_count + 1, st1.window_start⟩)

/-- The spec-facing allow(now) of the rate limiter: the negation of
is_rate_limited, with the same state transition. -/
def rl_allow (st : Option rate_limit_state) (now : Nat) :
    Bool × Option rate_limit_state :=
  let r := is_rate_limited st now
  (!r.1, r.2)

/-- Run a sequence of allow(now) calls against a single CPU's limiter
state, returning the final state and the number of permitted events. -/
def rl_run (st : Option rate_limit_state) (ts : List Nat) :
    Option rate_limit_state × Nat :=
  match ts with
  | [] => (st, 0)
  | t :: rest =>
    let r := rl_allow st t
    let rec2 := rl_run r.2 rest
    (rec2.1, (if r.1 then 1 else 0) + rec2.2)

/-- get_task_ctx, scx_slo.bpf.c lines 181-195: return the existing
context, or insert a fresh zeroed context and return it; none when
the map update fails (map full). -/
def get_task_ctx (s : TaskStore) (pid : Nat) : Option slo_task_ctx × TaskStore :=
  match s.entries pid with
  | some ctx => (some ctx, s)
  | none =>
    match ts_update s pid ⟨0, 0, 0, 0⟩ with
    | some s1 => (ts_lookup s1 pid, s1)
    | none => (none, s)

/-- The counters the code actually maintains: stats[0] and stats[1]
from the BPF stats map (scx_slo.bpf.c lines 111-122), plus the
userspace totals updated by handle_event in scx_slo.c lines 420-423. -/
structure Counters where
  local_dispatches : Nat
  global_enqueues : Nat
  total_deadline_misses : Nat
  total_miss_duration_ns : Nat
deriving DecidableEq, Repr

/-- What reading the counters yields (read_stats plus the metrics
endpoint of scx_slo.c): the four cumulative values. -/
def read_counters (c : Counters) : Nat × Nat × Nat × Nat :=
  (c.local_dispatches, c.global_enqueues,
   c.total_deadline_misses, c.total_miss_duration_ns)

/-- handle_event, scx_slo.c lines 420-423: the userspace consumer of
an emitted deadline event bumps the miss totals (u64 arithmetic). -/
def handle_event (c : Counters) (ev : deadline_event) : Counters :=
  { c with
    total_deadline_misses := (c.total_deadline_misses + 1) % U64MOD,
    total_miss_duration_ns := (c.total_miss_duration_ns + ev.deadline_miss_ns) % U64MOD }

/-- Deliver the outcome of one stop transition to the userspace
consumer: an emitted event is handled, a dropped one changes nothing. -/
def consume (c : Counters) (ev : Option deadline_event) : Counters :=
  match ev with
  | some e => handle_event c e
  | none => c

/-- Result of simple_enqueue: either the fallback insertion into the
shared DSQ without a context, or a vtime insertion keyed by the
computed deadline. -/
inductive EnqueueResult where
  | fallback
  | scheduled (deadline : Nat)
deriving DecidableEq, Repr

structure EnqueueOut where
  stats : Counters
  store : TaskStore
  result : EnqueueResult

/-- scx_slo.bpf.c lines 236-237: `cfg ? cfg->importance : 50`, the
importance read raw from the slo_map entry (it is not re-validated
here), defaulting to 50 when no entry is stored. -/
def raw_importance (slo_map : ConfigStore) (cg_id : Nat) : Nat :=
  match slo_map cg_id with
  | some cfg => cfg.importance
  | none => 50

/-- The deadline computation of simple_enqueue, scx_slo.bpf.c lines
236-252: raw importance clamped into [1,100], effective budget in u64
arithmetic with truncating division, then saturating addition to now. -/
def enqueue_deadline (slo_map : ConfigStore) (cg_id now : Nat) : Nat :=
  let budget_ns := get_safe_budget slo_map cg_id
  let importance := raw_importance slo_map cg_id
  let importance := if importance < 1 then 1 else importance
  let importance := if importance > 100 then 100 else importance
  let scaling_factor := 101 - importance
  let effective_budget := budget_ns * scaling_factor % U64MOD / 100
  if effective_budget > U64_MAX - now then U64_MAX
  else now + effective_budget

/-- simple_enqueue, scx_slo.bpf.c lines 211-262. pid, cg_id and now
stand for p->pid, bpf_get_current_cgroup_id() and bpf_ktime_get_ns(). -/
def simple_enqueue (slo_map : ConfigStore) (s : TaskStore) (c : Counters)
    (pid cg_id now : Nat) : EnqueueOut :=
  let c := { c with global_enqueues := (c.global_enqueues + 1) % U64MOD }
  let budget_ns := get_safe_budget slo_map cg_id
  match get_task_ctx s pid with
  | (none, s1) => ⟨c, s1, .fallback⟩
  | (some _, s1) =>
    let deadline := enqueue_deadline slo_map cg_id now
    ⟨c, ts_set s1 pid ⟨deadline, 0, budget_ns, 1⟩, .scheduled deadline⟩

/-- simple_running, scx_slo.bpf.c lines 268-276. -/
def simple_running (s : TaskStore) (pid now : Nat) : TaskStore :=
  match get_task_ctx s pid with
  | (some ctx, s1) =>
    if ctx.valid ≠ 0 then ts_set s1 pid { ctx with start_time := now }
    else s1
  | (none, s1) => s1

/-- simple_enable, scx_slo.bpf.c lines 311-317: just get_task_ctx. -/
def simple_enable (s : TaskStore) (pid : Nat) : TaskStore :=
  (get_task_ctx s pid).2

structure StopOut where
  store : TaskStore
  rl : Option rate_limit_state
  event : Option deadline_event

/-- simple_stopping, scx_slo.bpf.c lines 278-309. The ring buffer is
modelled as always having room (bpf_ringbuf_reserve succeeds). -/
def simple_stopping (s : TaskStore) (rl : Option rate_limit_state)
    (pid cg_id now : Nat) (runnable : Bool) : StopOut :=
  match ts_lookup s pid with
  | none => ⟨s, rl, none⟩
  | some ctx =>
    if ctx.valid = 0 then ⟨s, rl, none⟩
    else
      let res :=
        if now > ctx.deadline then
          let miss_duration := now - ctx.deadline
          let r := is_rate_limited rl now
          if r.1 then (r.2, (none : Option deadline_event))
          else (r.2, some ⟨cg_id, miss_duration, now⟩)
        else (rl, none)
      let s2 := if !runnable then ts_delete s pid else s
      ⟨s2, res.1, res.2⟩

/-! Helper lemmas shared by the claim theorems. -/

/-- validate_slo_cfg accepts exactly the configs whose budget and
importance are in bounds; the flags field plays no role. -/
lemma validate_eq_zero_iff (cfg : slo_cfg) :
    validate_slo_cfg cfg = 0 ↔
      (MIN_BUDGET_NS ≤ cfg.budget_ns ∧ cfg.budget_ns ≤ MAX_BUDGET_NS ∧
       MIN_IMPORTANCE ≤ cfg.importance ∧ cfg.importance ≤ MAX_IMPORTANCE) := by
  unfold validate_slo_cfg MIN_BUDGET_NS MAX_BUDGET_NS MIN_IMPORTANCE
    MAX_IMPORTANCE NSEC_PER_MSEC NSEC_PER_SEC
  split_ifs with h1 h2
  · constructor
    · intro h; exact absurd h (by decide)
    · intro h; exfalso; omega
  · constructor
    · intro h; exact absurd h (by decide)
    · intro h; exfalso; omega
  · constructor
    · intro _; omega
    · intro _; rfl

/-- get_safe_budget always lands in [MIN_BUDGET_NS, MAX_BUDGET_NS]. -/
lemma get_safe_budget_bounds (slo_map : ConfigStore) (cg : Nat) :
    MIN_BUDGET_NS ≤ get_safe_budget slo_map cg ∧
      get_safe_budget slo_map cg ≤ MAX_BUDGET_NS := by
  cases h : slo_map cg with
  | none =>
    simp only [get_safe_budget, h]
    decide
  | some cfg =>
    simp only [get_safe_budget, h]
    split_ifs with hv
    · decide
    · have := (validate_eq_zero_iff cfg).1 (by omega)
      exact ⟨this.1, this.2.1⟩

/-- Claim C8: for every wid and every Config Store contents, the value
returned by get_safe_budget lies in [MIN_BUDGET_NS, MAX_BUDGET_NS] =
[1000000, 10000000000]: it is either a stored budget_ns that passed
re-validation or DEFAULT_BUDGET_NS = 100000000, which is in bounds. -/
theorem claim_C8_safe_budget_in_bounds :
    ∀ (slo_map : ConfigStore) (wid : Nat),
      MIN_BUDGET_NS = 1000000 ∧ MAX_BUDGET_NS = 10000000000 ∧
      MIN_BUDGET_NS ≤ get_safe_budget slo_map wid ∧
      get_safe_budget slo_map wid ≤ MAX_BUDGET_NS ∧
      (get_safe_budget slo_map wid = DEFAULT_BUDGET_NS ∨
        ∃ cfg, slo_map wid = some cfg ∧ validate_slo_cfg cfg = 0 ∧
          get_safe_budget slo_map wid = cfg.budget_ns) := by
  intro slo_map wid
  refine ⟨by decide, by decide, (get_safe_budget_bounds slo_map wid).1,
    (get_safe_budget_bounds slo_map wid).2, ?_⟩
  unfold get_safe_budget
  cases h : slo_map wid with
  | none => exact Or.inl rfl
  | some cfg =>
    by_cases hv : validate_slo_cfg cfg = 0
    · exact Or.inr ⟨cfg, rfl, hv, by simp [hv]⟩
    · left; simp [hv]

/-- Claim C4, counterexample: a config with flags = 7 and in-bounds
budget and importance is accepted by validate_slo_cfg (returns 0),
contradicting the claim that any nonzero flags value is rejected. -/
theorem claim_C4_counterexample :
    validate_slo_cfg ⟨1000000, 50, 7⟩ = 0 ∧
      (⟨1000000, 50, 7⟩ : slo_cfg).flags ≠ 0 := by
  exact ⟨by decide, by decide⟩

/-- Claim C4, amended: validation ignores the flags field entirely.
validate_slo_cfg returns the same verdict whatever flags holds, and it
accepts a config exactly when budget_ns lies in
[MIN_BUDGET_NS, MAX_BUDGET_NS] and importance lies in [1, 100]; a
record with flags different from 0 and in-bounds fields is accepted. -/
theorem claim_C4_validator_ignores_flags :
    ∀ (cfg : slo_cfg) (f : Nat),
      validate_slo_cfg { cfg with flags := f } = validate_slo_cfg cfg ∧
      (validate_slo_cfg cfg = 0 ↔
        (MIN_BUDGET_NS ≤ cfg.budget_ns ∧ cfg.budget_ns ≤ MAX_BUDGET_NS ∧
         MIN_IMPORTANCE ≤ cfg.importance ∧ cfg.importance ≤ MAX_IMPORTANCE)) := by
  intro cfg f
  constructor
  · unfold validate_slo_cfg; rfl
  · exact validate_eq_zero_iff cfg

lemma ts_lookup_ts_set_self (s : TaskStore) (pid : Nat) (v : slo_task_ctx) :
    ts_lookup (ts_set s pid v) pid = some v := by
  simp [ts_lookup, ts_set]

lemma simple_enqueue_some (slo_map : ConfigStore) (s : TaskStore) (c : Counters)
    (pid cg now : Nat) (ctx0 : slo_task_ctx) (s1 : TaskStore)
    (hg : get_task_ctx s pid = (some ctx0, s1)) :
    simple_enqueue slo_map s c pid cg now =
      ⟨{ c with global_enqueues := (c.global_enqueues + 1) % U64MOD },
       ts_set s1 pid ⟨enqueue_deadline slo_map cg now, 0, get_safe_budget slo_map cg, 1⟩,
       .scheduled (enqueue_deadline slo_map cg now)⟩ := by
  simp [simple_enqueue, hg]

lemma simple_enqueue_none (slo_map : ConfigStore) (s : TaskStore) (c : Counters)
    (pid cg now : Nat) (s1 : TaskStore)
    (hg : get_task_ctx s pid = (none, s1)) :
    simple_enqueue slo_map s c pid cg now =
      ⟨{ c with global_enqueues := (c.global_enqueues + 1) % U64MOD },
       s1, .fallback⟩ := by
  simp [simple_enqueue, hg]

/-- The inline clamp-and-saturate block of simple_enqueue equals the
claim-side formulation: min/max clamp, no wrap in the multiplication
(the safe budget is at most 10^10), and the saturating add written
with the condition in the positive direction. -/
lemma clamp_min_max (i : Nat) :
    (if (if i < 1 then 1 else i) > 100 then 100
     else (if i < 1 then 1 else i)) = min 100 (max 1 i) := by
  split_ifs <;> omega

lemma enqueue_deadline_eq (slo_map : ConfigStore) (cg now : Nat) :
    enqueue_deadline slo_map cg now =
      (let budget := get_safe_budget slo_map cg
       let imp := min 100 (max 1 (raw_importance slo_map cg))
       let eff := budget * (101 - imp) / 100
       if eff ≤ U64_MAX - now then now + eff else U64_MAX) := by
  unfold enqueue_deadline
  dsimp only
  have hb := get_safe_budget_bounds slo_map cg
  rw [clamp_min_max (raw_importance slo_map cg)]
  have hlt : get_safe_budget slo_map cg *
      (101 - min 100 (max 1 (raw_importance slo_map cg))) < U64MOD := by
    have h1 : get_safe_budget slo_map cg *
        (101 - min 100 (max 1 (raw_importance slo_map cg))) ≤
          10000000000 * 100 := by
      apply Nat.mul_le_mul
      · exact le_trans hb.2 (by decide)
      · omega
    exact lt_of_le_of_lt h1 (by decide)
  rw [Nat.mod_eq_of_lt hlt]
  split_ifs with h1 h2 <;> omega

/-- Claim C1: for every enqueue that stores a context, with budget the
value returned by get_safe_budget(wid), imp the stored importance
(50 when no config is stored) clamped into [1,100], and
eff = budget * (101 - imp) / 100 with truncating division, the task
context's deadline after the enqueue equals now + eff when
eff <= U64_MAX - now, and U64_MAX otherwise. -/
theorem claim_C1_deadline_formula :
    ∀ (slo_map : ConfigStore) (s : TaskStore) (c : Counters) (tid wid now : Nat),
      now ≤ U64_MAX →
      ∀ d, (simple_enqueue slo_map s c tid wid now).result = .scheduled d →
      ∃ ctx, ts_lookup (simple_enqueue slo_map s c tid wid now).store tid = some ctx ∧
        ctx.deadline =
          (let budget := get_safe_budget slo_map wid
           let imp := min 100 (max 1 (raw_importance slo_map wid))
           let eff := budget * (101 - imp) / 100
           if eff ≤ U64_MAX - now then now + eff else U64_MAX) := by
  intro slo_map s c tid wid now _hnow d hd
  rcases hg : get_task_ctx s tid with ⟨ctxq, s1⟩
  cases ctxq with
  | none =>
    rw [simple_enqueue_none slo_map s c tid wid now s1 hg] at hd
    exact absurd hd (by simp)
  | some ctx0 =>
    rw [simple_enqueue_some slo_map s c tid wid now ctx0 s1 hg]
    refine ⟨_, ts_lookup_ts_set_self _ _ _, ?_⟩
    exact enqueue_deadline_eq slo_map wid now

/-- Witness for C1 at the spec's scenario 2: budget 20ms, importance 50,
enqueue at t = 1s gives deadline 1s + 20ms*51/100 = 1010200000. -/
theorem claim_C1_witness :
    ∃ ctx,
      ts_lookup (simple_enqueue (fun _ => some ⟨20000000, 50, 0⟩)
        ⟨fun _ => none, 0⟩ ⟨0, 0, 0, 0⟩ 2001 99999 1000000000).store 2001 = some ctx ∧
      ctx.deadline = 1010200000 := by
  obtain ⟨ctx, hctx, hd⟩ :=
    claim_C1_deadline_formula (fun _ => some ⟨20000000, 50, 0⟩)
      ⟨fun _ => none, 0⟩ ⟨0, 0, 0, 0⟩ 2001 99999 1000000000 (by decide)
      1010200000 (by decide)
  refine ⟨ctx, hctx, ?_⟩
  rw [hd]
  decide

/-- Claim C3: get_safe_budget returns the stored budget_ns exactly when
the store holds an entry that passes re-validation at read time;
otherwise (absent or failing re-validation) it returns
DEFAULT_BUDGET_NS = 100000000; and an enqueue that stores a context
records this value in ctx.budget_ns. -/
theorem claim_C3_safe_budget_fallback :
    ∀ (slo_map : ConfigStore) (wid : Nat),
      (∀ cfg, slo_map wid = some cfg → validate_slo_cfg cfg = 0 →
          get_safe_budget slo_map wid = cfg.budget_ns) ∧
      (slo_map wid = none → get_safe_budget slo_map wid = DEFAULT_BUDGET_NS) ∧
      (∀ cfg, slo_map wid = some cfg → validate_slo_cfg cfg ≠ 0 →
          get_safe_budget slo_map wid = DEFAULT_BUDGET_NS) ∧
      DEFAULT_BUDGET_NS = 100000000 ∧
      (∀ (s : TaskStore) (c : Counters) (tid now d : Nat),
        (simple_enqueue slo_map s c tid wid now).result = .scheduled d →
        ∃ ctx, ts_lookup (simple_enqueue slo_map s c tid wid now).store tid = some ctx ∧
          ctx.budget_ns = get_safe_budget slo_map wid) := by
  intro slo_map wid
  refine ⟨?_, ?_, ?_, by decide, ?_⟩
  · intro cfg h hv; simp [get_safe_budget, h, hv]
  · intro h; simp [get_safe_budget, h]
  · intro cfg h hv; simp [get_safe_budget, h, hv]
  · intro s c tid now d hd
    rcases hg : get_task_ctx s tid with ⟨ctxq, s1⟩
    cases ctxq with
    | none =>
      rw [simple_enqueue_none slo_map s c tid wid now s1 hg] at hd
      exact absurd hd (by simp)
    | some ctx0 =>
      rw [simple_enqueue_some slo_map s c tid wid now ctx0 s1 hg]
      exact ⟨_, ts_lookup_ts_set_self _ _ _, rfl⟩

/-- Witness for C3: an absent entry yields the default, a valid entry
yields its stored budget, an invalid (zero-budget) entry yields the
default, and a concrete enqueue with no stored config records
DEFAULT_BUDGET_NS in the context. -/
theorem claim_C3_witness :
    get_safe_budget (fun _ => none) 5 = DEFAULT_BUDGET_NS ∧
    get_safe_budget (fun _ => some ⟨2000000, 30, 0⟩) 5 = 2000000 ∧
    get_safe_budget (fun _ => some ⟨0, 30, 0⟩) 5 = DEFAULT_BUDGET_NS ∧
    (∃ ctx, ts_lookup (simple_enqueue (fun _ => none)
        ⟨fun _ => none, 0⟩ ⟨0, 0, 0, 0⟩ 1 5 1000).store 1 = some ctx ∧
      ctx.budget_ns = get_safe_budget (fun _ => none) 5) := by
  refine ⟨(claim_C3_safe_budget_fallback (fun _ => none) 5).2.1 rfl,
    (claim_C3_safe_budget_fallback (fun _ => some ⟨2000000, 30, 0⟩) 5).1 _ rfl (by decide),
    (claim_C3_safe_budget_fallback (fun _ => some ⟨0, 30, 0⟩) 5).2.2.1 _ rfl (by decide),
    (claim_C3_safe_budget_fallback (fun _ => none) 5).2.2.2.2 _ _ 1 1000 51001000 (by decide)⟩

lemma ts_lookup_ts_delete_self (s : TaskStore) (pid : Nat) :
    ts_lookup (ts_delete s pid) pid = none := by
  unfold ts_delete
  cases h : s.entries pid with
  | some ctx => simp [ts_lookup]
  | none => simpa [ts_lookup] using h

/-- Characterization of simple_stopping on a present, valid context. -/
lemma simple_stopping_valid (s : TaskStore) (rl : Option rate_limit_state)
    (tid wid now : Nat) (runnable : Bool) (ctx : slo_task_ctx)
    (hl : ts_lookup s tid = some ctx) (hv : ctx.valid ≠ 0) :
    simple_stopping s rl tid wid now runnable =
      ⟨if runnable then s else ts_delete s tid,
       if now > ctx.deadline then (is_rate_limited rl now).2 else rl,
       if now > ctx.deadline ∧ (is_rate_limited rl now).1 = false then
         some ⟨wid, now - ctx.deadline, now⟩ else none⟩ := by
  unfold simple_stopping
  rw [hl]
  dsimp only
  rw [if_neg hv]
  by_cases hm : now > ctx.deadline
  · rw [if_pos hm]
    cases hr : (is_rate_limited rl now).1 <;>
      cases runnable <;>
        simp [hm, hr]
  · rw [if_neg hm]
    cases runnable <;> simp [hm]

/-- Characterization of simple_stopping when the context is absent. -/
lemma simple_stopping_absent (s : TaskStore) (rl : Option rate_limit_state)
    (tid wid now : Nat) (runnable : Bool)
    (hl : ts_lookup s tid = none) :
    simple_stopping s rl tid wid now runnable = ⟨s, rl, none⟩ := by
  unfold simple_stopping
  rw [hl]

/-- Characterization of simple_stopping on an uninitialized context. -/
lemma simple_stopping_invalid (s : TaskStore) (rl : Option rate_limit_state)
    (tid wid now : Nat) (runnable : Bool) (ctx : slo_task_ctx)
    (hl : ts_lookup s tid = some ctx) (hv : ctx.valid = 0) :
    simple_stopping s rl tid wid now runnable = ⟨s, rl, none⟩ := by
  unfold simple_stopping
  rw [hl]
  dsimp only
  rw [if_pos hv]

/-- Claim C2: on a stop of a task with a present, valid context, a
DeadlineEvent is emitted iff now_at_stop is strictly past the stored
absolute deadline and the rate limiter permits; the miss is
now - deadline; and now = deadline never emits (boundary on-time). -/
theorem claim_C2_miss_detection :
    ∀ (s : TaskStore) (rl : Option rate_limit_state) (tid wid now : Nat)
      (runnable : Bool) (ctx : slo_task_ctx),
      ts_lookup s tid = some ctx → ctx.valid ≠ 0 →
      (((simple_stopping s rl tid wid now runnable).event).isSome ↔
        (now > ctx.deadline ∧ (rl_allow rl now).1 = true)) ∧
      (now > ctx.deadline → (rl_allow rl now).1 = true →
        (simple_stopping s rl tid wid now runnable).event =
          some ⟨wid, now - ctx.deadline, now⟩) ∧
      (now = ctx.deadline →
        (simple_stopping s rl tid wid now runnable).event = none) := by
  intro s rl tid wid now runnable ctx hl hv
  rw [simple_stopping_valid s rl tid wid now runnable ctx hl hv]
  dsimp only
  have hallow : (rl_allow rl now).1 = !(is_rate_limited rl now).1 := rfl
  refine ⟨?_, ?_, ?_⟩
  · by_cases hm : now > ctx.deadline <;>
      cases hr : (is_rate_limited rl now).1 <;>
        simp [hm, hr, hallow]
  · intro hm hperm
    rw [hallow] at hperm
    have hr : (is_rate_limited rl now).1 = false := by
      cases h : (is_rate_limited rl now).1
      · rfl
      · rw [h] at hperm; exact absurd hperm (by decide)
    rw [if_pos ⟨hm, hr⟩]
  · intro hm
    rw [if_neg]
    intro hcontra
    omega

/-- Witness for C2: a valid context with deadline 100 stopped at 150
with a fresh limiter emits miss 50; stopped exactly at 100 emits
nothing. -/
theorem claim_C2_witness :
    (simple_stopping ⟨fun k => if k = 7 then some ⟨100, 0, 50, 1⟩ else none, 1⟩
        (some ⟨0, 0⟩) 7 42 150 true).event = some ⟨42, 50, 150⟩ ∧
    (simple_stopping ⟨fun k => if k = 7 then some ⟨100, 0, 50, 1⟩ else none, 1⟩
        (some ⟨0, 0⟩) 7 42 100 true).event = none := by
  constructor
  · exact (claim_C2_miss_detection _ (some ⟨0, 0⟩) 7 42 150 true ⟨100, 0, 50, 1⟩
      (by decide) (by decide)).2.1 (by decide) (by decide)
  · exact (claim_C2_miss_detection _ (some ⟨0, 0⟩) 7 42 100 true ⟨100, 0, 50, 1⟩
      (by decide) (by decide)).2.2 rfl

/-- Claim C7: stopping(runnable=false) on a valid context removes the
entry, so a later lookup is absent; stopping(runnable=true) leaves the
store untouched (context still present, still valid); and stopping on
an absent or uninitialized context changes nothing and emits nothing. -/
theorem claim_C7_context_cleanup :
    ∀ (s : TaskStore) (rl : Option rate_limit_state) (tid wid now : Nat),
      (∀ ctx, ts_lookup s tid = some ctx → ctx.valid ≠ 0 →
        ts_lookup (simple_stopping s rl tid wid now false).store tid = none ∧
        (simple_stopping s rl tid wid now true).store = s ∧
        ts_lookup (simple_stopping s rl tid wid now true).store tid = some ctx) ∧
      (ts_lookup s tid = none →
        ∀ runnable, simple_stopping s rl tid wid now runnable = ⟨s, rl, none⟩) ∧
      (∀ ctx, ts_lookup s tid = some ctx → ctx.valid = 0 →
        ∀ runnable, simple_stopping s rl tid wid now runnable = ⟨s, rl, none⟩) := by
  intro s rl tid wid now
  refine ⟨?_, ?_, ?_⟩
  · intro ctx hl hv
    rw [simple_stopping_valid s rl tid wid now false ctx hl hv,
        simple_stopping_valid s rl tid wid now true ctx hl hv]
    exact ⟨ts_lookup_ts_delete_self s tid, rfl, hl⟩
  · intro hl runnable
    exact simple_stopping_absent s rl tid wid now runnable hl
  · intro ctx hl hv runnable
    exact simple_stopping_invalid s rl tid wid now runnable ctx hl hv

/-- Witness for C7: removal on runnable=false, no-op on runnable=true,
and no-op on a store with no entry for the tid. -/
theorem claim_C7_witness :
    ts_lookup (simple_stopping ⟨fun k => if k = 7 then some ⟨100, 0, 50, 1⟩ else none, 1⟩
        (some ⟨0, 0⟩) 7 42 150 false).store 7 = none ∧
    (simple_stopping ⟨fun k => if k = 7 then some ⟨100, 0, 50, 1⟩ else none, 1⟩
        (some ⟨0, 0⟩) 7 42 150 true).store =
      ⟨fun k => if k = 7 then some ⟨100, 0, 50, 1⟩ else none, 1⟩ ∧
    simple_stopping (⟨fun _ => none, 0⟩ : TaskStore) (some ⟨0, 0⟩) 8 42 150 true =
      ⟨⟨fun _ => none, 0⟩, some ⟨0, 0⟩, none⟩ := by
  refine ⟨?_, ?_, ?_⟩
  · exact ((claim_C7_context_cleanup _ (some ⟨0, 0⟩) 7 42 150).1 ⟨100, 0, 50, 1⟩
      (by decide) (by decide)).1
  · exact ((claim_C7_context_cleanup _ (some ⟨0, 0⟩) 7 42 150).1 ⟨100, 0, 50, 1⟩
      (by decide) (by decide)).2.1
  · exact (claim_C7_context_cleanup (⟨fun _ => none, 0⟩ : TaskStore)
      (some ⟨0, 0⟩) 8 42 150).2.1 rfl true

/-- Claim C10: every emitted DeadlineEvent has miss_ns >= 1, its
timestamp equals the stored absolute deadline plus miss_ns, and it
carries the wid observed at stop; an event with miss_ns = 0 is never
produced. -/
theorem claim_C10_event_invariant :
    ∀ (s : TaskStore) (rl : Option rate_limit_state) (tid wid now : Nat)
      (runnable : Bool) (ctx : slo_task_ctx) (ev : deadline_event),
      ts_lookup s tid = some ctx →
      (simple_stopping s rl tid wid now runnable).event = some ev →
      1 ≤ ev.deadline_miss_ns ∧
      ev.timestamp = ctx.deadline + ev.deadline_miss_ns ∧
      ev.cgroup_id = wid := by
  intro s rl tid wid now runnable ctx ev hl hev
  by_cases hv : ctx.valid = 0
  · rw [simple_stopping_invalid s rl tid wid now runnable ctx hl hv] at hev
    exact absurd hev (by simp)
  · rw [simple_stopping_valid s rl tid wid now runnable ctx hl hv] at hev
    dsimp only at hev
    by_cases hc : now > ctx.deadline ∧ (is_rate_limited rl now).1 = false
    · rw [if_pos hc] at hev
      obtain ⟨hm, _⟩ := hc
      cases hev
      refine ⟨by dsimp; omega, by dsimp; omega, rfl⟩
    · rw [if_neg hc] at hev
      exact absurd hev (by simp)

/-- Witness for C10 at a concrete miss: deadline 300, stop at 301
yields miss_ns 1 and timestamp 300 + 1. -/
theorem claim_C10_witness :
    1 ≤ (301 : Nat) - 300 ∧
    ∃ ev, (simple_stopping ⟨fun k => if k = 11 then some ⟨300, 0, 50, 1⟩ else none, 1⟩
        (some ⟨0, 0⟩) 11 77 301 false).event = some ev ∧
      1 ≤ ev.deadline_miss_ns ∧ ev.timestamp = 300 + ev.deadline_miss_ns ∧
      ev.cgroup_id = 77 := by
  refine ⟨by decide, ⟨⟨77, 1, 301⟩, by decide, ?_⟩⟩
  exact claim_C10_event_invariant
    ⟨fun k => if k = 11 then some ⟨300, 0, 50, 1⟩ else none, 1⟩
    (some ⟨0, 0⟩) 11 77 301 false ⟨300, 0, 50, 1⟩
    ⟨77, 1, 301⟩ (by decide) (by decide)

/-- Claim C9: running(tid) on a tid with no stored context (and a free
slot) inserts a fresh zeroed context (deadline 0, start_time 0,
budget_ns 0, valid 0), consuming one slot; start_time stays 0 because
the fresh context is not valid. The enable hook behaves the same. -/
theorem claim_C9_running_creates_ctx :
    ∀ (s : TaskStore) (tid now : Nat),
      ts_lookup s tid = none → s.size < MAX_TASKS →
      ts_lookup (simple_running s tid now) tid = some ⟨0, 0, 0, 0⟩ ∧
      (simple_running s tid now).size = s.size + 1 ∧
      ts_lookup (simple_enable s tid) tid = some ⟨0, 0, 0, 0⟩ ∧
      (simple_enable s tid).size = s.size + 1 := by
  intro s tid now hl hsize
  have hl' : s.entries tid = none := hl
  have hg : get_task_ctx s tid =
      (some ⟨0, 0, 0, 0⟩,
       ⟨fun k => if k = tid then some ⟨0, 0, 0, 0⟩ else s.entries k, s.size + 1⟩) := by
    unfold get_task_ctx ts_update
    rw [hl']
    dsimp only
    rw [if_pos hsize]
    simp [ts_lookup]
  refine ⟨?_, ?_, ?_, ?_⟩
  · unfold simple_running
    rw [hg]
    simp [ts_lookup]
  · unfold simple_running
    rw [hg]
    simp
  · unfold simple_enable
    rw [hg]
    simp [ts_lookup]
  · unfold simple_enable
    rw [hg]

/-- Witness for C9: running on an empty store creates the zeroed
context and the store size grows from 0 to 1; likewise enable. -/
theorem claim_C9_witness :
    ts_lookup (simple_running ⟨fun _ => none, 0⟩ 3 500) 3 = some ⟨0, 0, 0, 0⟩ ∧
    (simple_running ⟨fun _ => none, 0⟩ 3 500).size = 1 ∧
    ts_lookup (simple_enable ⟨fun _ => none, 0⟩ 3) 3 = some ⟨0, 0, 0, 0⟩ ∧
    (simple_enable ⟨fun _ => none, 0⟩ 3).size = 1 := by
  exact claim_C9_running_creates_ctx ⟨fun _ => none, 0⟩ 3 500 rfl (by decide)

lemma u64_sub_of_le (a b : Nat) (hba : b ≤ a) (ha : a < U64MOD) :
    u64_sub a b = a - b := by
  unfold u64_sub
  have hb : b < U64MOD := lt_of_le_of_lt hba ha
  rw [Nat.mod_eq_of_lt hb]
  have hstep : a + (U64MOD - b) = U64MOD + (a - b) := by omega
  rw [hstep, Nat.add_mod_left, Nat.mod_eq_of_lt (by omega)]

lemma rl_allow_no_reset_denied (st : rate_limit_state) (now : Nat)
    (hnr : ¬(u64_sub now st.window_start > RATE_LIMIT_WINDOW_NS))
    (hc : st.event_count ≥ MAX_EVENTS_PER_SEC) :
    rl_allow (some st) now = (false, some st) := by
  simp [rl_allow, is_rate_limited, hnr, hc]

lemma rl_allow_no_reset_granted (st : rate_limit_state) (now : Nat)
    (hnr : ¬(u64_sub now st.window_start > RATE_LIMIT_WINDOW_NS))
    (hc : st.event_count < MAX_EVENTS_PER_SEC) :
    rl_allow (some st) now =
      (true, some ⟨st.event_count + 1, st.window_start⟩) := by
  simp [rl_allow, is_rate_limited, hnr, Nat.not_le.mpr hc]

lemma rl_allow_reset (st : rate_limit_state) (now : Nat)
    (hr : u64_sub now st.window_start > RATE_LIMIT_WINDOW_NS) :
    rl_allow (some st) now = (true, some ⟨1, now⟩) := by
  unfold rl_allow is_rate_limited
  dsimp only
  rw [if_pos hr]
  norm_num [MAX_EVENTS_PER_SEC]

lemma rl_run_cons (st : Option rate_limit_state) (t : Nat) (rest : List Nat) :
    rl_run st (t :: rest) =
      ((rl_run (rl_allow st t).2 rest).1,
       (if (rl_allow st t).1 then 1 else 0) + (rl_run (rl_allow st t).2 rest).2) := rfl

/-- While no window reset fires (every call lands inside the current
window), the number of permitted events is bounded by the remaining
budget of the window counter. -/
lemma rl_run_bound (ts : List Nat) : ∀ (st : rate_limit_state),
    (∀ t ∈ ts, st.window_start ≤ t ∧ t - st.window_start ≤ RATE_LIMIT_WINDOW_NS ∧
      t < U64MOD) →
    (rl_run (some st) ts).2 ≤ MAX_EVENTS_PER_SEC - st.event_count := by
  induction ts with
  | nil => intro st _; simp [rl_run]
  | cons t rest ih =>
    intro st hts
    obtain ⟨h1, h2, h3⟩ := hts t (by simp)
    have hnr : ¬(u64_sub t st.window_start > RATE_LIMIT_WINDOW_NS) := by
      rw [u64_sub_of_le t st.window_start h1 h3]
      omega
    rw [rl_run_cons]
    by_cases hc : st.event_count ≥ MAX_EVENTS_PER_SEC
    · rw [rl_allow_no_reset_denied st t hnr hc]
      have htail := ih st (fun u hu => hts u (List.mem_cons_of_mem _ hu))
      simpa using htail
    · push_neg at hc
      rw [rl_allow_no_reset_granted st t hnr hc]
      have htail := ih ⟨st.event_count + 1, st.window_start⟩
        (fun u hu => hts u (List.mem_cons_of_mem _ hu))
      dsimp at htail ⊢
      omega

/-- Claim C5: the allow(now) contract of the per-CPU rate limiter:
window reset when now - window_start exceeds WINDOW_NS, denial at
count >= MAX_EVENTS_PER_WINDOW = 1000, increment-and-grant below it,
fail-closed (false) when the per-CPU state cannot be accessed; and
consequently, within one fixed window on a single CPU, at most 1000
events are permitted. -/
theorem claim_C5_rate_limiter :
    ∀ (st : rate_limit_state) (now : Nat),
      (let st1 := if u64_sub now st.window_start > RATE_LIMIT_WINDOW_NS then
          (⟨0, now⟩ : rate_limit_state) else st
       (st1.event_count ≥ MAX_EVENTS_PER_SEC →
          rl_allow (some st) now = (false, some st1)) ∧
       (st1.event_count < MAX_EVENTS_PER_SEC →
          rl_allow (some st) now =
            (true, some ⟨st1.event_count + 1, st1.window_start⟩))) ∧
      rl_allow none now = (false, none) ∧
      MAX_EVENTS_PER_SEC = 1000 ∧
      (∀ (ws : Nat) (ts : List Nat),
        (∀ t ∈ ts, ws ≤ t ∧ t - ws ≤ RATE_LIMIT_WINDOW_NS ∧ t < U64MOD) →
        (rl_run (some ⟨0, ws⟩) ts).2 ≤ MAX_EVENTS_PER_SEC) := by
  intro st now
  refine ⟨?_, rfl, rfl, ?_⟩
  · dsimp only
    constructor
    · intro h
      by_cases hr : u64_sub now st.window_start > RATE_LIMIT_WINDOW_NS
      · rw [if_pos hr] at h
        dsimp at h
        exact absurd h (by decide)
      · rw [if_neg hr] at h ⊢
        exact rl_allow_no_reset_denied st now hr h
    · intro h
      by_cases hr : u64_sub now st.window_start > RATE_LIMIT_WINDOW_NS
      · rw [if_pos hr]
        exact rl_allow_reset st now hr
      · rw [if_neg hr] at h ⊢
        exact rl_allow_no_reset_granted st now hr h
  · intro ws ts hts
    simpa using rl_run_bound ts ⟨0, ws⟩ hts

/-- Witness for C5: a fresh window grants and counts, a saturated
window denies, the inaccessible state denies, and a concrete two-call
trace inside one window grants at most 1000 events. -/
theorem claim_C5_witness :
    rl_allow (some ⟨0, 0⟩) 5 = (true, some ⟨1, 0⟩) ∧
    rl_allow (some ⟨1000, 0⟩) 5 = (false, some ⟨1000, 0⟩) ∧
    rl_allow none 5 = (false, none) ∧
    (rl_run (some ⟨0, 0⟩) [1, 2]).2 ≤ MAX_EVENTS_PER_SEC := by
  refine ⟨?_, ?_, (claim_C5_rate_limiter ⟨0, 0⟩ 5).2.1, ?_⟩
  · exact ((claim_C5_rate_limiter ⟨0, 0⟩ 5).1).2 (by decide)
  · exact ((claim_C5_rate_limiter ⟨1000, 0⟩ 5).1).1 (by decide)
  · exact (claim_C5_rate_limiter ⟨0, 0⟩ 5).2.2.2 0 [1, 2] (by decide)

/-- Claim C6, counterexample: a stop at now = 2000 on a context with
deadline 1000 is a miss, the saturated limiter (count = 1000) denies
it, and nothing in the code's counter state records the drop: reading
the counters afterwards yields exactly the values from before. There
is no rate-limited-drops counter to increment. -/
theorem claim_C6_counterexample :
    (2000 : Nat) > 1000 ∧
    (simple_stopping ⟨fun k => if k = 9 then some ⟨1000, 0, 77, 1⟩ else none, 1⟩
        (some ⟨1000, 0⟩) 9 55 2000 true).event = none ∧
    read_counters (consume ⟨3, 4, 5, 6⟩
      (simple_stopping ⟨fun k => if k = 9 then some ⟨1000, 0, 77, 1⟩ else none, 1⟩
        (some ⟨1000, 0⟩) 9 55 2000 true).event) = read_counters ⟨3, 4, 5, 6⟩ := by
  refine ⟨by decide, by decide, by decide⟩

/-- Claim C6, amended: on a detected miss, if the limiter permits, the
event is emitted and its consumption by the userspace reader bumps the
deadline-miss counter by one and the miss-duration sum by miss_ns; if
the limiter denies, the event is silently dropped and no counter
changes (the code maintains no rate-limited-drops counter); reading
the counters yields local_dispatches, global_enqueues,
deadline_misses_total and miss_duration_ns_sum. -/
theorem claim_C6_amended_counters :
    ∀ (s : TaskStore) (rl : Option rate_limit_state) (c : Counters)
      (tid wid now : Nat) (runnable : Bool) (ctx : slo_task_ctx),
      ts_lookup s tid = some ctx → ctx.valid ≠ 0 → now > ctx.deadline →
      ((rl_allow rl now).1 = true →
        (simple_stopping s rl tid wid now runnable).event =
          some ⟨wid, now - ctx.deadline, now⟩ ∧
        consume c (simple_stopping s rl tid wid now runnable).event =
          ⟨c.local_dispatches, c.global_enqueues,
           (c.total_deadline_misses + 1) % U64MOD,
           (c.total_miss_duration_ns + (now - ctx.deadline)) % U64MOD⟩) ∧
      ((rl_allow rl now).1 = false →
        (simple_stopping s rl tid wid now runnable).event = none ∧
        read_counters (consume c
          (simple_stopping s rl tid wid now runnable).event) = read_counters c) := by
  intro s rl c tid wid now runnable ctx hl hv hm
  rw [simple_stopping_valid s rl tid wid now runnable ctx hl hv]
  dsimp only
  have hallow : (rl_allow rl now).1 = !(is_rate_limited rl now).1 := rfl
  constructor
  · intro hperm
    rw [hallow] at hperm
    have hr : (is_rate_limited rl now).1 = false := by
      cases h : (is_rate_limited rl now).1
      · rfl
      · rw [h] at hperm; exact absurd hperm (by decide)
    rw [if_pos ⟨hm, hr⟩]
    exact ⟨rfl, rfl⟩
  · intro hdeny
    rw [hallow] at hdeny
    have hr : (is_rate_limited rl now).1 = true := by
      cases h : (is_rate_limited rl now).1
      · rw [h] at hdeny; exact absurd hdeny (by decide)
      · rfl
    rw [if_neg]
    · exact ⟨rfl, rfl⟩
    · intro hcontra
      rw [hr] at hcontra
      exact absurd hcontra.2 (by decide)

/-- Witness for the amended C6: a permitted miss bumps the miss
counters through consumption; the denied case leaves them unchanged. -/
theorem claim_C6_witness :
    ((simple_stopping ⟨fun k => if k = 9 then some ⟨1000, 0, 77, 1⟩ else none, 1⟩
        (some ⟨0, 0⟩) 9 55 2000 true).event = some ⟨55, 1000, 2000⟩ ∧
      consume ⟨3, 4, 5, 6⟩
        (simple_stopping ⟨fun k => if k = 9 then some ⟨1000, 0, 77, 1⟩ else none, 1⟩
          (some ⟨0, 0⟩) 9 55 2000 true).event =
        ⟨3, 4, 6 % U64MOD, 1006 % U64MOD⟩) ∧
    ((simple_stopping ⟨fun k => if k = 9 then some ⟨1000, 0, 77, 1⟩ else none, 1⟩
        (some ⟨1000, 0⟩) 9 55 2000 true).event = none ∧
      read_counters (consume ⟨3, 4, 5, 6⟩
        (simple_stopping ⟨fun k => if k = 9 then some ⟨1000, 0, 77, 1⟩ else none, 1⟩
          (some ⟨1000, 0⟩) 9 55 2000 true).event) = read_counters ⟨3, 4, 5, 6⟩) := by
  constructor
  · exact (claim_C6_amended_counters _ (some ⟨0, 0⟩) ⟨3, 4, 5, 6⟩ 9 55 2000 true
      ⟨1000, 0, 77, 1⟩ (by decide) (by decide) (by decide)).1 (by decide)
  · exact (claim_C6_amended_counters _ (some ⟨1000, 0⟩) ⟨3, 4, 5, 6⟩ 9 55 2000 true
      ⟨1000, 0, 77, 1⟩ (by decide) (by decide) (by decide)).2 (by decide)

end ScxSlo
